import Mathlib

/-!
Verification of the pyrsmi binding core (`pyrsmi/rocml.py`): a shallow
embedding of the session state machine, handle table, status translator and
the metric-query facade, with theorems settling the specification claims.

Native calls are modelled by an explicit oracle environment (`NativeEnv`):
a call that returns a non-success status code is modelled as `none`, a
successful call as `some` of the decoded output structure.  Python
exceptions are modelled with `Except PyErr`; a `try/except Exception`
block is the `pyCatch` combinator mapping any error to the documented
sentinel return value.  Machine integers (`c_uint32`, `c_uint64`) are
modelled as `Nat`; every facade value channel is `Int` so that the `-1`
sentinel is representable.
-/

namespace PyRSMI

/-- Python strings are modelled as lists of characters. -/
abbrev PyStr := List Char

/-- Python exception values raised by `rocml.py`: the builtin exceptions it
uses plus the `ROCMLError_*` classes defined at the top of the module. -/
inductive PyErr where
  | valueError (msg : String)
  | attributeError (msg : String)
  | runtimeError (msg : String)
  | notSupported (msg : String)
  | functionNotFound
  | libraryNotFound (msg : String)
  | driverNotLoaded
  | uninitialized
  deriving DecidableEq

/-- `amdsmi_power_info_t` (voltage fields and padding carried but unused). -/
structure PowerInfo where
  socket_power : Nat
  current_socket_power : Nat
  average_socket_power : Nat
  gfx_voltage : Nat
  soc_voltage : Nat
  mem_voltage : Nat
  power_limit : Nat
  deriving DecidableEq

/-- `amdsmi_pcie_static_t` (static sub-structure of the PCIe info). -/
structure PcieStatic where
  max_pcie_width : Nat
  max_pcie_speed : Nat
  pcie_interface_version : Nat
  slot_type : Nat
  deriving DecidableEq

/-- `amdsmi_pcie_metric_t` (metric sub-structure of the PCIe info). -/
structure PcieMetric where
  pcie_width : Nat
  pcie_speed : Nat
  pcie_bandwidth : Nat
  pcie_replay_count : Nat
  deriving DecidableEq

/-- `amdsmi_pcie_info_t`. -/
structure PcieInfo where
  pcie_static : PcieStatic
  pcie_metric : PcieMetric
  deriving DecidableEq

/-- `amdsmi_engine_usage_t`. -/
structure EngineUsage where
  gfx_activity : Nat
  umc_activity : Nat
  mm_activity : Nat
  deriving DecidableEq

/-- `amdsmi_asic_info_t` (the fields the facade reads). -/
structure AsicInfo where
  market_name : PyStr
  vendor_id : Nat
  device_id : Nat
  rev_id : Nat
  deriving DecidableEq

/-- Outcome of the two per-socket native calls made inside the discovery
loop of `_init_processor_handles`: the count call and the fetch call for
`amdsmi_get_processor_handles`.  `none` models a non-success status. -/
structure SocketEnv where
  procCountRet : Option Nat
  procHandlesRet : Option (List Nat)
  deriving DecidableEq

/-- Oracle for the native library: each field models one native entry point
(the returned status code fused with the decoded output: `none` is a
non-success status, `some` a successful call).  Processor handles are
opaque; they are modelled as `Nat`. -/
structure NativeEnv where
  libraryFound : Bool
  driverLive : Bool
  initRet : Int
  socketCountRet : Option Nat
  socketFetchRet : Option (List SocketEnv)
  gpuActivity : Nat → Option EngineUsage
  asicInfo : Nat → Option AsicInfo
  memUsage : Nat → Nat → Option Nat
  memTotal : Nat → Nat → Option Nat
  powerInfo : Nat → Option PowerInfo
  pcieInfo : Nat → Option PcieInfo
  uuidNative : Nat → Option PyStr
  bdf : Nat → Option Nat
  statusToString : Int → Option String

/-- The module-level mutable state of `rocml.py`: `rocm_lib` (whether the
shared object is loaded), `_handle_initialized`, `_processor_handles`, and
`_rocm_lib_refcount`. -/
structure SmiState where
  rocmLibLoaded : Bool
  handleInitialized : Bool
  processorHandles : List Nat
  refCount : Int
  deriving DecidableEq

/-- A Python `try: ... except Exception: return sentinel` block: any raised
error is swallowed and the documented sentinel is returned instead. -/
def pyCatch {A : Type} (sentinel : A) (r : Except PyErr A × SmiState) :
    Except PyErr A × SmiState :=
  match r with
  | (.error _, st) => (.ok sentinel, st)
  | (.ok v, st) => (.ok v, st)

/-- The `amdsmi_status_verbose_err_out` dictionary mapping amdsmi status
codes to diagnostic strings. -/
def amdsmi_status_verbose_err_out : List (Int × String) :=
  [(0, "Operation was successful"),
   (1, "Invalid parameters"),
   (2, "Command not supported"),
   (3, "Not implemented yet"),
   (4, "Failed to load library module"),
   (5, "Failed to load symbol"),
   (6, "Error when calling libdrm"),
   (7, "API call failed"),
   (8, "Timeout in API call"),
   (9, "Retry operation"),
   (10, "Permission denied"),
   (11, "Interrupt occurred during execution"),
   (12, "I/O Error"),
   (13, "Bad address"),
   (14, "Problem accessing a file"),
   (15, "Not enough memory"),
   (16, "Internal exception was caught"),
   (17, "Input is out of allowable or safe range"),
   (18, "Error occurred during initialization"),
   (19, "Internal reference counter exceeded INT32_MAX"),
   (20, "Directory not found"),
   (30, "Processor busy"),
   (31, "Processor not found"),
   (32, "Processor not initialized"),
   (33, "No more free slot"),
   (34, "Processor driver not loaded"),
   (39, "More data than buffer size"),
   (40, "No data found for input"),
   (41, "Insufficient resources available"),
   (42, "Unexpected amount of data read")]

/-- `amdsmi_status_verbose_err_out.get(code, default)`: the static table
fallback message used when the native message is unavailable. -/
def statusTableMsg (ret : Int) : String :=
  (amdsmi_status_verbose_err_out.lookup ret).getD
    ("Unknown error code: " ++ toString ret)

/-- `amdsmi_ret_ok`: returns `true` iff the status code is 0; on any other
code it resolves a diagnostic (native `amdsmi_status_code_to_string` when
that call succeeds and yields a non-empty message, otherwise the static
table) and logs it.  The second component is the list of emitted log
records.  Total by construction: the source wraps the native message call
in its own `try/except`, so the translator never raises. -/
def amdsmi_ret_ok (env : NativeEnv) (ret : Int) : Bool × List String :=
  if ret ≠ 0 then
    match env.statusToString ret with
    | some s =>
        if s.length ≠ 0 then (false, ["AMDSMI Error: " ++ s])
        else (false, ["AMDSMI Error: " ++ statusTableMsg ret])
    | none => (false, ["AMDSMI Error: " ++ statusTableMsg ret])
  else (true, [])

/-- `rsmi_ret_ok`: the legacy entry point, now a wrapper around
`amdsmi_ret_ok` (it accepts both the legacy rsmi codes and the new amdsmi
codes, success being 0 in both sets). -/
def rsmi_ret_ok (env : NativeEnv) (ret : Int) : Bool × List String :=
  amdsmi_ret_ok env ret

/-- Per-socket body of the discovery loop in `_init_processor_handles`:
first the processor-count call, then the processor-handle fetch call; any
failure logs a warning and contributes no handles (the loop `continue`s).
Returns the handles contributed by this socket and the log records. -/
def socketContribution (s : SocketEnv) : List Nat × List String :=
  match s.procCountRet with
  | none => ([], ["Failed to get processor count for socket"])
  | some 0 => ([], ["No processors found on socket"])
  | some (_ + 1) =>
    match s.procHandlesRet with
    | some hs => (hs, ["Socket: found processors"])
    | none => ([], ["Failed to get processor handles for socket"])

/-- `_init_processor_handles`: no-op when already initialized; otherwise
resets the table, enumerates sockets (count call then fetch call), and per
socket appends that socket's processor handles in order.  Failure paths
leave `_handle_initialized` false; only a completed loop sets it.  When the
library is not loaded, the attribute access on `None` raises, and the
blanket handler resets the table. -/
def init_processor_handles (env : NativeEnv) (st : SmiState) :
    SmiState × List String :=
  if st.handleInitialized then (st, [])
  else if st.rocmLibLoaded = false then
    ({ st with processorHandles := [] },
     ["Exception during processor handle initialization"])
  else
    match env.socketCountRet with
    | none => ({ st with processorHandles := [] }, ["Failed to get socket count"])
    | some 0 => ({ st with processorHandles := [] }, ["No sockets found"])
    | some (_ + 1) =>
      match env.socketFetchRet with
      | none =>
          ({ st with processorHandles := [] }, ["Failed to get socket handles"])
      | some sockets =>
          let contribs := sockets.map socketContribution
          ({ st with
              processorHandles := (contribs.map Prod.fst).flatten,
              handleInitialized := true },
           (contribs.map Prod.snd).flatten)

/-- The handle stored at a device index (0 as the irrelevant default; every
use is guarded by the range check of `_get_processor_handle`). -/
def deviceHandle (st : SmiState) (dev : Int) : Nat :=
  (st.processorHandles.get? dev.toNat).getD 0

/-- `_get_processor_handle`: lazily populates the table, then range-checks
the index, raising `ValueError` when out of range; otherwise returns the
stored opaque handle. -/
def get_processor_handle (env : NativeEnv) (st : SmiState) (dev : Int) :
    Except PyErr Nat × SmiState :=
  let st1 := (init_processor_handles env st).1
  if dev < 0 ∨ (st1.processorHandles.length : Int) ≤ dev then
    (.error (.valueError "Invalid device index"), st1)
  else
    (.ok (deviceHandle st1 dev), st1)

/-- `smi_initialize`: load the shared library, check the amdgpu driver
live-state indicator (raising a plain `RuntimeError` when absent), invoke
the native `amdsmi_init` entry point (raising `RuntimeError` on a
non-success code), populate the handle table, and bump the reference
count.  The third component records whether the native `amdsmi_init`
entry point was invoked. -/
def smi_initialize (env : NativeEnv) (st : SmiState) :
    Except PyErr Unit × SmiState × Bool :=
  -- _load_rocm_library: double-checked load of libamd_smi.so
  let loaded : Except PyErr SmiState :=
    if st.rocmLibLoaded then .ok st
    else if env.libraryFound then .ok { st with rocmLibLoaded := true }
    else .error (.libraryNotFound "AMD SMI library not found")
  match loaded with
  | .error e => (.error e, st, false)
  | .ok st1 =>
    if env.driverLive = false then
      (.error (.runtimeError "AMD GPU driver not initialized"), st1, false)
    else if env.initRet ≠ 0 then
      (.error (.runtimeError "AMD SMI initialization failed"), st1, true)
    else
      let st2 := (init_processor_handles env st1).1
      (.ok (), { st2 with refCount := st2.refCount + 1 }, true)

/-- Body of the `try` block of `smi_get_device_utilization`: resolve the
handle, call `amdsmi_get_gpu_activity`, return the `gfx_activity` field on
success and `-1` on a non-success status. -/
def smi_get_device_utilization_try (env : NativeEnv) (st : SmiState)
    (dev : Int) : Except PyErr Int × SmiState :=
  match get_processor_handle env st dev with
  | (.error e, st1) => (.error e, st1)
  | (.ok h, st1) =>
    match env.gpuActivity h with
    | some eu => (.ok (eu.gfx_activity : Int), st1)
    | none => (.ok (-1), st1)

/-- `smi_get_device_utilization`: the try body under the blanket
`except Exception` handler returning the `-1` sentinel. -/
def smi_get_device_utilization (env : NativeEnv) (st : SmiState)
    (dev : Int) : Except PyErr Int × SmiState :=
  pyCatch (-1) (smi_get_device_utilization_try env st dev)

/-- Body of the `try` block of `smi_get_device_id`: resolve the handle,
call `amdsmi_get_gpu_asic_info`, return the `device_id` field on success
and `-1` on a non-success status. -/
def smi_get_device_id_try (env : NativeEnv) (st : SmiState) (dev : Int) :
    Except PyErr Int × SmiState :=
  match get_processor_handle env st dev with
  | (.error e, st1) => (.error e, st1)
  | (.ok h, st1) =>
    match env.asicInfo h with
    | some info => (.ok (info.device_id : Int), st1)
    | none => (.ok (-1), st1)

/-- `smi_get_device_id` with the blanket handler. -/
def smi_get_device_id (env : NativeEnv) (st : SmiState) (dev : Int) :
    Except PyErr Int × SmiState :=
  pyCatch (-1) (smi_get_device_id_try env st dev)

/-- The `memory_type_l` list of accepted memory-type strings. -/
def memory_type_l : List String := ["VRAM", "VIS_VRAM", "GTT"]

/-- Body of the `try` block of `smi_get_device_memory_used`:
`memory_type_l.index(type)` raises `ValueError` for an unknown string
(modelled by `findIdx?` returning `none`); the index is mapped to the
amdsmi memory-type enum (identical values 0, 1, 2; the defensive `else`
branch returning `-1` is unreachable), then `amdsmi_get_gpu_memory_usage`
is called. -/
def smi_get_device_memory_used_try (env : NativeEnv) (st : SmiState)
    (dev : Int) (ty : String) : Except PyErr Int × SmiState :=
  match get_processor_handle env st dev with
  | (.error e, st1) => (.error e, st1)
  | (.ok h, st1) =>
    match memory_type_l.findIdx? (· == ty) with
    | none => (.error (.valueError "substring not found"), st1)
    | some typeIdx =>
      if typeIdx = 0 ∨ typeIdx = 1 ∨ typeIdx = 2 then
        match env.memUsage h typeIdx with
        | some used => (.ok (used : Int), st1)
        | none => (.ok (-1), st1)
      else (.ok (-1), st1)

/-- `smi_get_device_memory_used` with the blanket handler. -/
def smi_get_device_memory_used (env : NativeEnv) (st : SmiState)
    (dev : Int) (ty : String) : Except PyErr Int × SmiState :=
  pyCatch (-1) (smi_get_device_memory_used_try env st dev ty)

/-- Body of the `try` block of `smi_get_device_memory_total` (same shape as
the used-memory query, calling `amdsmi_get_gpu_memory_total`). -/
def smi_get_device_memory_total_try (env : NativeEnv) (st : SmiState)
    (dev : Int) (ty : String) : Except PyErr Int × SmiState :=
  match get_processor_handle env st dev with
  | (.error e, st1) => (.error e, st1)
  | (.ok h, st1) =>
    match memory_type_l.findIdx? (· == ty) with
    | none => (.error (.valueError "substring not found"), st1)
    | some typeIdx =>
      if typeIdx = 0 ∨ typeIdx = 1 ∨ typeIdx = 2 then
        match env.memTotal h typeIdx with
        | some total => (.ok (total : Int), st1)
        | none => (.ok (-1), st1)
      else (.ok (-1), st1)

/-- `smi_get_device_memory_total` with the blanket handler. -/
def smi_get_device_memory_total (env : NativeEnv) (st : SmiState)
    (dev : Int) (ty : String) : Except PyErr Int × SmiState :=
  pyCatch (-1) (smi_get_device_memory_total_try env st dev ty)

/-- Body of the `try` block of `smi_get_device_average_power`: call
`amdsmi_get_power_info`; on success return the first strictly positive
field among `current_socket_power`, `average_socket_power`,
`socket_power`, else `-1`.  The fields are unsigned watt counts, so the
`float()` conversion of the source is exact and modelled by the identity
into `Int`. -/
def smi_get_device_average_power_try (env : NativeEnv) (st : SmiState)
    (dev : Int) : Except PyErr Int × SmiState :=
  match get_processor_handle env st dev with
  | (.error e, st1) => (.error e, st1)
  | (.ok h, st1) =>
    match env.powerInfo h with
    | none => (.ok (-1), st1)
    | some pinfo =>
      if 0 < pinfo.current_socket_power then
        (.ok (pinfo.current_socket_power : Int), st1)
      else if 0 < pinfo.average_socket_power then
        (.ok (pinfo.average_socket_power : Int), st1)
      else if 0 < pinfo.socket_power then
        (.ok (pinfo.socket_power : Int), st1)
      else (.ok (-1), st1)

/-- `smi_get_device_average_power` with the blanket handler. -/
def smi_get_device_average_power (env : NativeEnv) (st : SmiState)
    (dev : Int) : Except PyErr Int × SmiState :=
  pyCatch (-1) (smi_get_device_average_power_try env st dev)

/-- Body of the `try` block of `smi_get_device_pcie_throughput`: call
`amdsmi_get_pcie_info`; on success convert the bandwidth field from Mb/s
to bytes/s with `int(b * 1024 * 1024 / 8)` when it is positive, else 0.
`pcie_bandwidth` is a `c_uint32`, so `b * 1024 * 1024 < 2 ^ 52` and the
float arithmetic of the source is exact; truncating `int()` coincides with
`Nat` division since 8 divides `1024 * 1024`. -/
def smi_get_device_pcie_throughput_try (env : NativeEnv) (st : SmiState)
    (dev : Int) : Except PyErr Int × SmiState :=
  match get_processor_handle env st dev with
  | (.error e, st1) => (.error e, st1)
  | (.ok h, st1) =>
    match env.pcieInfo h with
    | some info =>
      let b := info.pcie_metric.pcie_bandwidth
      if 0 < b then (.ok ((b * 1024 * 1024 / 8 : Nat) : Int), st1)
      else (.ok 0, st1)
    | none => (.ok (-1), st1)

/-- `smi_get_device_pcie_throughput` with the blanket handler. -/
def smi_get_device_pcie_throughput (env : NativeEnv) (st : SmiState)
    (dev : Int) : Except PyErr Int × SmiState :=
  pyCatch (-1) (smi_get_device_pcie_throughput_try env st dev)

/-- Body of the `try` block of `smi_get_device_unique_id`: call
`amdsmi_get_gpu_device_bdf` and return the packed 64-bit `as_uint` value,
`-1` on a non-success status. -/
def smi_get_device_unique_id_try (env : NativeEnv) (st : SmiState)
    (dev : Int) : Except PyErr Int × SmiState :=
  match get_processor_handle env st dev with
  | (.error e, st1) => (.error e, st1)
  | (.ok h, st1) =>
    match env.bdf h with
    | some n => (.ok (n : Int), st1)
    | none => (.ok (-1), st1)

/-- `smi_get_device_unique_id` with the blanket handler. -/
def smi_get_device_unique_id (env : NativeEnv) (st : SmiState)
    (dev : Int) : Except PyErr Int × SmiState :=
  pyCatch (-1) (smi_get_device_unique_id_try env st dev)

/-- The lowercase hexadecimal digit characters used by Python `x` string
formatting. -/
def hexDigits : List Char := "0123456789abcdef".toList

/-- The hex digit character for one nibble. -/
def hexDigit (n : Nat) : Char := hexDigits.getD (n % 16) '0'

/-- The Python f-string `032x` rendering of the BDF value: 32 lowercase
hex digits, most significant nibble first.  `as_uint` is a `c_uint64`, so
the value has at most 16 significant digits and the zero padding always
yields exactly 32 characters, which this fixed-width rendering produces
directly. -/
def bdfHex32 (n : Nat) : PyStr :=
  ((List.range 32).reverse).map (fun i => hexDigit (n / 16 ^ i % 16))

/-- The `GPU-` prefix string constant. -/
def gpuTag : PyStr := ['G', 'P', 'U', '-']

/-- Python slice `l[a:b]`. -/
def pySlice (l : PyStr) (a b : Nat) : PyStr := (l.drop a).take (b - a)

/-- Body of the `try` block of `smi_get_device_uuid`: first the native
`amdsmi_get_gpu_device_uuid` call; on success format the decoded string
per the requested format, raising `ValueError` for any other format
string.  On a non-success status fall back to the BDF-derived pseudo-UUID:
`smi_get_device_unique_id`, early-return of the empty string when that is
`-1`, else the `032x` hex rendering formatted per the requested format
(again `ValueError` on an unknown format). -/
def smi_get_device_uuid_try (env : NativeEnv) (st : SmiState) (dev : Int)
    (format : String) : Except PyErr PyStr × SmiState :=
  match get_processor_handle env st dev with
  | (.error e, st1) => (.error e, st1)
  | (.ok h, st1) =>
    match env.uuidNative h with
    | some uuid_str =>
      if format = "roc" then
        if List.isPrefixOf gpuTag uuid_str then (.ok uuid_str, st1)
        else (.ok (gpuTag ++ uuid_str), st1)
      else if format = "raw" then
        if List.isPrefixOf gpuTag uuid_str then (.ok (uuid_str.drop 4), st1)
        else (.ok uuid_str, st1)
      else if format = "nv" then
        let raw_uuid :=
          if List.isPrefixOf gpuTag uuid_str then uuid_str.drop 4 else uuid_str
        (.ok (gpuTag ++ raw_uuid), st1)
      else (.error (.valueError "Invalid format"), st1)
    | none =>
      match smi_get_device_unique_id env st1 dev with
      | (.error e, st2) => (.error e, st2)
      | (.ok bdfId, st2) =>
        if bdfId = -1 then (.ok [], st2)
        else
          let bdf_hex := bdfHex32 bdfId.toNat
          if format = "roc" then (.ok (gpuTag ++ bdf_hex), st2)
          else if format = "raw" then (.ok bdf_hex, st2)
          else if format = "nv" then
            (.ok (gpuTag ++
              (bdf_hex.take 8 ++ '-' :: pySlice bdf_hex 8 12 ++
               '-' :: pySlice bdf_hex 12 16 ++ '-' :: pySlice bdf_hex 16 20 ++
               '-' :: pySlice bdf_hex 20 32)), st2)
          else (.error (.valueError "Invalid format"), st2)

/-- `smi_get_device_uuid` with the blanket handler returning the empty
string. -/
def smi_get_device_uuid (env : NativeEnv) (st : SmiState) (dev : Int)
    (format : String) : Except PyErr PyStr × SmiState :=
  pyCatch [] (smi_get_device_uuid_try env st dev format)

/-- The transformation named by the UUID cross-format claim: strip a
leading `GPU-` tag, then remove every hyphen. -/
def dropGpuTag (s : PyStr) : PyStr :=
  if List.isPrefixOf gpuTag s then s.drop 4 else s

/-- Strip the `GPU-` tag and all hyphens, leaving the raw hex payload. -/
def stripUuid (s : PyStr) : PyStr :=
  (dropGpuTag s).filter (fun c => c ≠ '-')

/-- A concrete oracle for witnesses: library present, driver live, one
socket with one processor handle, every metric call unsupported. -/
def env0 : NativeEnv where
  libraryFound := true
  driverLive := true
  initRet := 0
  socketCountRet := some 1
  socketFetchRet := some [⟨some 1, some [7]⟩]
  gpuActivity := fun _ => none
  asicInfo := fun _ => none
  memUsage := fun _ _ => none
  memTotal := fun _ _ => none
  powerInfo := fun _ => none
  pcieInfo := fun _ => none
  uuidNative := fun _ => none
  bdf := fun _ => none
  statusToString := fun _ => none

/-- The module state at process start: library not loaded, handle table
empty and unpopulated, reference count zero. -/
def stFresh : SmiState := ⟨false, false, [], 0⟩

/-- A concrete initialized session: library loaded, table populated with
one handle, one outstanding initialize. -/
def stReady : SmiState := ⟨true, true, [7], 1⟩

/-- A loaded-but-unpopulated session, as it stands right after the native
init call inside `smi_initialize`. -/
def stLoaded : SmiState := ⟨true, false, [], 0⟩

/-- Oracle whose driver live-state indicator reports not live. -/
def envNoDriver : NativeEnv := { env0 with driverLive := false }

/-- Oracle whose native UUID call succeeds with a bare (unprefixed) id. -/
def envC3 : NativeEnv := { env0 with uuidNative := fun _ => some ['a', 'b', '1'] }

/-- A concrete power-info sample: current 0, average 3, socket 5. -/
def pw0 : PowerInfo := ⟨5, 0, 3, 1, 1, 1, 100⟩

/-- Oracle whose power-info call succeeds with `pw0`. -/
def envC6 : NativeEnv := { env0 with powerInfo := fun _ => some pw0 }

/-- A concrete PCIe-info sample with a 256 Mb/s bandwidth figure. -/
def pc0 : PcieInfo := ⟨⟨16, 32, 4, 0⟩, ⟨16, 32, 256, 0⟩⟩

/-- Oracle whose PCIe-info call succeeds with `pc0`. -/
def envC7 : NativeEnv := { env0 with pcieInfo := fun _ => some pc0 }

/-- A healthy socket with one processor. -/
def sockOk1 : SocketEnv := ⟨some 1, some [10]⟩

/-- A socket whose native calls fail. -/
def sockBad : SocketEnv := ⟨none, none⟩

/-- A healthy socket with two processors. -/
def sockOk2 : SocketEnv := ⟨some 2, some [20, 21]⟩

/-- Oracle enumerating three sockets, the middle one failing. -/
def envC8 : NativeEnv :=
  { env0 with socketFetchRet := some [sockOk1, sockBad, sockOk2] }

/- ### Helper lemmas -/

/-- Population is a no-op on an already-initialized session. -/
theorem init_processor_handles_of_initialized (env : NativeEnv) (st : SmiState)
    (hinit : st.handleInitialized = true) :
    init_processor_handles env st = (st, []) := by
  simp [init_processor_handles, hinit]

/-- On an initialized session, resolving an in-range index returns the
stored handle and leaves the state unchanged. -/
theorem get_processor_handle_ready (env : NativeEnv) (st : SmiState) (dev : Int)
    (hinit : st.handleInitialized = true) (h0 : 0 ≤ dev)
    (hlt : dev < (st.processorHandles.length : Int)) :
    get_processor_handle env st dev = (.ok (deviceHandle st dev), st) := by
  unfold get_processor_handle
  rw [init_processor_handles_of_initialized env st hinit]
  simp only []
  rw [if_neg (by omega)]

/-- On an initialized session, resolving an out-of-range index raises
`ValueError` and leaves the state unchanged. -/
theorem get_processor_handle_out_of_range (env : NativeEnv) (st : SmiState)
    (dev : Int) (hinit : st.handleInitialized = true)
    (hbad : dev < 0 ∨ (st.processorHandles.length : Int) ≤ dev) :
    get_processor_handle env st dev
      = (.error (.valueError "Invalid device index"), st) := by
  unfold get_processor_handle
  rw [init_processor_handles_of_initialized env st hinit]
  simp only []
  rw [if_pos (by omega)]

/- ### Claim theorems -/

/-- C5: the status translator returns `true` exactly on the shared success
code 0; on every other code it resolves one diagnostic record (native
message when available and non-empty, else the static table) and returns
`false`; `rsmi_ret_ok` agrees with `amdsmi_ret_ok` on every code; both are
total functions, so neither ever throws. -/
theorem ret_ok_spec (env : NativeEnv) (ret : Int) :
    (amdsmi_ret_ok env ret).1 = decide (ret = 0)
    ∧ rsmi_ret_ok env ret = amdsmi_ret_ok env ret
    ∧ (ret = 0 → amdsmi_ret_ok env ret = (true, []))
    ∧ (ret ≠ 0 → (amdsmi_ret_ok env ret).1 = false
        ∧ (amdsmi_ret_ok env ret).2.length = 1) := by
  refine ⟨?_, rfl, ?_, ?_⟩
  · by_cases h : ret = 0
    · simp [amdsmi_ret_ok, h]
    · unfold amdsmi_ret_ok
      rw [if_pos h]
      cases hs : env.statusToString ret with
      | none => simp [h]
      | some s => by_cases hl : s.length ≠ 0 <;> simp [hl, h]
  · intro h; simp [amdsmi_ret_ok, h]
  · intro h
    unfold amdsmi_ret_ok
    rw [if_pos h]
    cases hs : env.statusToString ret with
    | none => simp
    | some s => by_cases hl : s.length ≠ 0 <;> simp [hl]

/-- Witness for C5 at the concrete non-success code 2. -/
theorem ret_ok_spec_witness :
    (2 : Int) ≠ 0
    ∧ (amdsmi_ret_ok env0 2).1 = false
    ∧ (amdsmi_ret_ok env0 2).2.length = 1 :=
  ⟨by decide, (ret_ok_spec env0 2).2.2.2 (by decide)⟩

/-- C2 counterexample: on the fresh (never-initialized) module state, a
metric query does not raise `ROCMLError_Uninitialized`; it returns the
`-1` sentinel value (the internal `AttributeError`/`ValueError` is
swallowed by the blanket handlers). -/
theorem query_before_init_counterexample :
    smi_get_device_utilization env0 stFresh 0 = (.ok (-1), stFresh)
    ∧ (smi_get_device_utilization env0 stFresh 0).1
        ≠ .error .uninitialized := by
  exact ⟨rfl, fun h => nomatch h⟩

/-- C2 corrected: before `smi_initialize` has ever been called, every
device index and every oracle make the facade queries return the `-1`
sentinel as an ordinary value; no `Uninitialized` error reaches the
caller. -/
theorem query_before_init_returns_sentinel (env : NativeEnv) (dev : Int) :
    (smi_get_device_utilization env stFresh dev).1 = .ok (-1)
    ∧ (smi_get_device_id env stFresh dev).1 = .ok (-1) := by
  have h1 : (init_processor_handles env stFresh).1 = stFresh := rfl
  have hg : get_processor_handle env stFresh dev
      = (.error (.valueError "Invalid device index"), stFresh) := by
    unfold get_processor_handle
    rw [h1]
    simp only [stFresh, List.length_nil, Nat.cast_zero]
    rw [if_pos (by omega)]
  constructor
  · simp [smi_get_device_utilization, smi_get_device_utilization_try, hg, pyCatch]
  · simp [smi_get_device_id, smi_get_device_id_try, hg, pyCatch]

/-- C1 counterexample: on an initialized session, an unknown memory-type
string — and likewise an out-of-range index — makes the memory queries
return the ordinary value `-1`, the very same sentinel a failed native
call produces, instead of an explicit invalid-argument error. -/
theorem memory_invalid_args_counterexample :
    smi_get_device_memory_used env0 stReady 0 "DRAM" = (.ok (-1), stReady)
    ∧ smi_get_device_memory_used env0 stReady 5 "VRAM" = (.ok (-1), stReady)
    ∧ smi_get_device_memory_total env0 stReady 0 "DRAM" = (.ok (-1), stReady) := by
  exact ⟨rfl, rfl, rfl⟩

/-- C1 corrected: on an initialized session, a memory query with an
out-of-range device index or a memory-type string outside
`memory_type_l` returns the `-1` sentinel as an ordinary value — the
internal `ValueError` is caught by the blanket handler, so the caller
cannot distinguish invalid arguments from a failed native call. -/
theorem memory_invalid_args_return_sentinel (env : NativeEnv) (st : SmiState)
    (dev : Int) (ty : String) (hinit : st.handleInitialized = true)
    (hbad : ty ∉ memory_type_l
      ∨ dev < 0 ∨ (st.processorHandles.length : Int) ≤ dev) :
    (smi_get_device_memory_used env st dev ty).1 = .ok (-1)
    ∧ (smi_get_device_memory_total env st dev ty).1 = .ok (-1) := by
  rcases hbad with hty | hdev
  · have hfind : memory_type_l.findIdx? (· == ty) = none := by
      apply List.findIdx?_eq_none_iff.mpr
      intro x hx
      simp only [beq_eq_false_iff_ne, ne_eq]
      intro hxty
      exact hty (hxty ▸ hx)
    rcases hgp : get_processor_handle env st dev with ⟨r, st1⟩
    cases r with
    | error e =>
      constructor
      · simp [smi_get_device_memory_used, smi_get_device_memory_used_try, hgp, pyCatch]
      · simp [smi_get_device_memory_total, smi_get_device_memory_total_try, hgp, pyCatch]
    | ok h =>
      constructor
      · simp [smi_get_device_memory_used, smi_get_device_memory_used_try, hgp,
          hfind, pyCatch]
      · simp [smi_get_device_memory_total, smi_get_device_memory_total_try, hgp,
          hfind, pyCatch]
  · have hgp := get_processor_handle_out_of_range env st dev hinit hdev
    constructor
    · simp [smi_get_device_memory_used, smi_get_device_memory_used_try, hgp, pyCatch]
    · simp [smi_get_device_memory_total, smi_get_device_memory_total_try, hgp, pyCatch]

/-- Witness for C1's corrected claim at the concrete bad type string. -/
theorem memory_invalid_args_return_sentinel_witness :
    stReady.handleInitialized = true
    ∧ "DRAM" ∉ memory_type_l
    ∧ (smi_get_device_memory_used env0 stReady 0 "DRAM").1 = .ok (-1)
    ∧ (smi_get_device_memory_total env0 stReady 0 "DRAM").1 = .ok (-1) :=
  ⟨rfl, by decide,
    memory_invalid_args_return_sentinel env0 stReady 0 "DRAM" rfl
      (Or.inl (by decide))⟩

/-- C9 counterexample: with the library present but the driver not live,
`smi_initialize` fails with the generic `RuntimeError`, which is not the
typed `ROCMLError_DriverNotLoaded` (that class is defined but never
raised); the native init entry point is indeed not invoked. -/
theorem driver_not_loaded_counterexample :
    smi_initialize envNoDriver stFresh
      = (.error (.runtimeError "AMD GPU driver not initialized"),
         (⟨true, false, [], 0⟩ : SmiState), false)
    ∧ (Except.error (PyErr.runtimeError "AMD GPU driver not initialized")
        : Except PyErr Unit) ≠ .error .driverNotLoaded := by
  exact ⟨rfl, fun h => nomatch h⟩

/-- C9 corrected: when the library loads but the amdgpu driver does not
report live state, `smi_initialize` fails with a generic `RuntimeError`
(not the typed `ROCMLError_DriverNotLoaded`) before the native init entry
point is invoked. -/
theorem driver_not_live_runtime_error (env : NativeEnv) (st : SmiState)
    (hlib : st.rocmLibLoaded = true ∨ env.libraryFound = true)
    (hdrv : env.driverLive = false) :
    ( smi_initialize env st).1
      = .error (.runtimeError "AMD GPU driver not initialized")
    ∧ ( smi_initialize env st).2.2 = false := by
  by_cases h1 : st.rocmLibLoaded
  · constructor <;> simp [ smi_initialize, h1, hdrv]
  · rcases hlib with h | h
    · exact absurd h h1
    · constructor <;> simp [ smi_initialize, h1, h, hdrv]

/-- Witness for C9's corrected claim on the concrete no-driver oracle. -/
theorem driver_not_live_runtime_error_witness :
    (stFresh.rocmLibLoaded = true ∨ envNoDriver.libraryFound = true)
    ∧ envNoDriver.driverLive = false
    ∧ ( smi_initialize envNoDriver stFresh).1
        = .error (.runtimeError "AMD GPU driver not initialized")
    ∧ ( smi_initialize envNoDriver stFresh).2.2 = false :=
  ⟨Or.inr rfl, rfl,
    driver_not_live_runtime_error envNoDriver stFresh (Or.inr rfl) rfl⟩

/-- C8: during handle-table population, when the socket enumeration
succeeds, the resulting table is exactly the in-order concatenation of
every socket's contribution; a socket whose processor-count or
processor-fetch call fails contributes no handles and logs a warning,
without aborting the discovery of the other sockets. -/
theorem handle_table_skips_failing_socket (env : NativeEnv) (st : SmiState)
    (sockets : List SocketEnv) (n : Nat)
    (hini : st.handleInitialized = false) (hload : st.rocmLibLoaded = true)
    (hcount : env.socketCountRet = some (n + 1))
    (hfetch : env.socketFetchRet = some sockets) :
    (init_processor_handles env st).1.processorHandles
      = (sockets.map (fun s => (socketContribution s).1)).flatten
    ∧ ∀ s ∈ sockets, (s.procCountRet = none ∨ s.procHandlesRet = none) →
        (socketContribution s).1 = [] ∧ (socketContribution s).2 ≠ [] := by
  constructor
  · simp [init_processor_handles, hini, hload, hcount, hfetch, List.map_map]
    rfl
  · intro s hs hfail
    rcases hfail with hf | hf
    · simp [socketContribution, hf]
    · cases hc : s.procCountRet with
      | none => simp [socketContribution, hc]
      | some k =>
        cases k with
        | zero => simp [socketContribution, hc]
        | succ m => simp [socketContribution, hc, hf]

/-- Witness for C8 on a concrete three-socket oracle whose middle socket
fails. -/
theorem handle_table_skips_failing_socket_witness :
    stLoaded.handleInitialized = false
    ∧ stLoaded.rocmLibLoaded = true
    ∧ envC8.socketCountRet = some (0 + 1)
    ∧ envC8.socketFetchRet = some [sockOk1, sockBad, sockOk2]
    ∧ ((init_processor_handles envC8 stLoaded).1.processorHandles
        = ([sockOk1, sockBad, sockOk2].map
            (fun s => (socketContribution s).1)).flatten
       ∧ ∀ s ∈ [sockOk1, sockBad, sockOk2],
           (s.procCountRet = none ∨ s.procHandlesRet = none) →
           (socketContribution s).1 = [] ∧ (socketContribution s).2 ≠ []) :=
  ⟨rfl, rfl, rfl, rfl,
    handle_table_skips_failing_socket envC8 stLoaded
      [sockOk1, sockBad, sockOk2] 0 rfl rfl rfl rfl⟩

/-- C6: when the native power-info call succeeds, the average-power query
returns the first strictly positive field in the order
`current_socket_power`, `average_socket_power`, `socket_power`, and the
`-1` sentinel when all three are non-positive (the fields are unsigned,
so non-positive means zero; the `float()` conversion is exact). -/
theorem average_power_preference_order (env : NativeEnv) (st : SmiState)
    (dev : Int) (pinfo : PowerInfo)
    (hinit : st.handleInitialized = true) (h0 : 0 ≤ dev)
    (hlt : dev < (st.processorHandles.length : Int))
    (hp : env.powerInfo (deviceHandle st dev) = some pinfo) :
    (smi_get_device_average_power env st dev).1
      = .ok (match [pinfo.current_socket_power, pinfo.average_socket_power,
              pinfo.socket_power].find? (fun x => decide (0 < x)) with
             | some v => (v : Int)
             | none => -1) := by
  have hgp := get_processor_handle_ready env st dev hinit h0 hlt
  unfold smi_get_device_average_power smi_get_device_average_power_try
  rw [hgp]
  by_cases h1 : 0 < pinfo.current_socket_power
  · simp [hp, pyCatch, List.find?, h1]
  · by_cases h2 : 0 < pinfo.average_socket_power
    · simp [hp, pyCatch, List.find?, h1, h2]
    · by_cases h3 : 0 < pinfo.socket_power
      · simp [hp, pyCatch, List.find?, h1, h2, h3]
      · simp [hp, pyCatch, List.find?, h1, h2, h3]

/-- Witness for C6 on the concrete sample `pw0` (current 0, average 3,
socket 5): the average field is the first positive one. -/
theorem average_power_preference_order_witness :
    stReady.handleInitialized = true
    ∧ (0 : Int) ≤ 0
    ∧ (0 : Int) < (stReady.processorHandles.length : Int)
    ∧ envC6.powerInfo (deviceHandle stReady 0) = some pw0
    ∧ (smi_get_device_average_power envC6 stReady 0).1
        = .ok (match [pw0.current_socket_power, pw0.average_socket_power,
                pw0.socket_power].find? (fun x => decide (0 < x)) with
               | some v => (v : Int)
               | none => -1) :=
  ⟨rfl, by decide, by decide, rfl,
    average_power_preference_order envC6 stReady 0 pw0 rfl (by decide)
      (by decide) rfl⟩

/-- C7: when the native PCIe-info call succeeds and reports a bandwidth
figure `b` in Mb/s, the throughput query returns `b * 1048576 / 8`
bytes per second (for `b = 0` the source returns its literal 0, which
coincides with the formula). -/
theorem pcie_throughput_conversion (env : NativeEnv) (st : SmiState)
    (dev : Int) (info : PcieInfo)
    (hinit : st.handleInitialized = true) (h0 : 0 ≤ dev)
    (hlt : dev < (st.processorHandles.length : Int))
    (hp : env.pcieInfo (deviceHandle st dev) = some info) :
    (smi_get_device_pcie_throughput env st dev).1
      = .ok ((info.pcie_metric.pcie_bandwidth * 1048576 / 8 : Nat) : Int) := by
  have hgp := get_processor_handle_ready env st dev hinit h0 hlt
  unfold smi_get_device_pcie_throughput smi_get_device_pcie_throughput_try
  rw [hgp]
  by_cases hb : 0 < info.pcie_metric.pcie_bandwidth
  · simp [hp, pyCatch, hb]
    omega
  · have hz : info.pcie_metric.pcie_bandwidth = 0 := by omega
    simp [hp, pyCatch, hb, hz]

/-- Witness for C7 on the concrete sample `pc0` (bandwidth 256 Mb/s). -/
theorem pcie_throughput_conversion_witness :
    stReady.handleInitialized = true
    ∧ (0 : Int) ≤ 0
    ∧ (0 : Int) < (stReady.processorHandles.length : Int)
    ∧ envC7.pcieInfo (deviceHandle stReady 0) = some pc0
    ∧ (smi_get_device_pcie_throughput envC7 stReady 0).1
        = .ok ((pc0.pcie_metric.pcie_bandwidth * 1048576 / 8 : Nat) : Int) :=
  ⟨rfl, by decide, by decide, rfl,
    pcie_throughput_conversion envC7 stReady 0 pc0 rfl (by decide)
      (by decide) rfl⟩

/-- Prepending the tag to the tail past the tag reconstructs a prefixed
string. -/
theorem gpuTag_prepend_drop (s : PyStr) (h : List.isPrefixOf gpuTag s = true) :
    gpuTag ++ s.drop 4 = s := by
  obtain ⟨t, ht⟩ := List.isPrefixOf_iff_prefix.mp h
  rw [← ht]
  have h4 : (4 : Nat) = gpuTag.length := rfl
  rw [h4, List.drop_left]

/-- The tag test succeeds on a tagged string. -/
theorem isPrefixOf_gpuTag_append (l : PyStr) :
    List.isPrefixOf gpuTag (gpuTag ++ l) = true :=
  List.isPrefixOf_iff_prefix.mpr ⟨l, rfl⟩

/-- Stripping the tag from a tagged string yields the payload. -/
theorem dropGpuTag_append (l : PyStr) : dropGpuTag (gpuTag ++ l) = l := by
  unfold dropGpuTag
  rw [if_pos (isPrefixOf_gpuTag_append l)]
  have h4 : (4 : Nat) = gpuTag.length := rfl
  rw [h4, List.drop_left]

/-- Hex digit characters are never a hyphen. -/
theorem hexDigit_ne_dash (n : Nat) : hexDigit n ≠ '-' := by
  have h : n % 16 < 16 := Nat.mod_lt _ (by norm_num)
  unfold hexDigit
  set m := n % 16 with hm
  interval_cases m <;> decide

/-- The 32-digit hex rendering contains no hyphen. -/
theorem bdfHex32_no_dash (n : Nat) : ∀ c ∈ bdfHex32 n, c ≠ '-' := by
  intro c hc
  simp only [bdfHex32, List.mem_map, List.mem_reverse, List.mem_range] at hc
  obtain ⟨i, _, hceq⟩ := hc
  rw [← hceq]
  exact hexDigit_ne_dash _

/-- The hex rendering has exactly 32 characters. -/
theorem bdfHex32_length (n : Nat) : (bdfHex32 n).length = 32 := by
  simp [bdfHex32]

/-- Removing hyphens is the identity on hyphen-free strings. -/
theorem filter_ne_dash_eq_self (l : PyStr) (h : ∀ c ∈ l, c ≠ '-') :
    l.filter (fun c => c ≠ '-') = l := by
  apply List.filter_eq_self.mpr
  intro a ha
  simpa using h a ha

/-- A leading hyphen is removed by the hyphen filter. -/
theorem filter_dash_cons (l : PyStr) :
    ('-' :: l).filter (fun c => c ≠ '-') = l.filter (fun c => c ≠ '-') := by
  simp

/-- The four UUID slices of a 32-character string reassemble it. -/
theorem pySlice_chunks_32 (l : PyStr) (hl : l.length = 32) :
    l.take 8 ++ (pySlice l 8 12 ++ (pySlice l 12 16
      ++ (pySlice l 16 20 ++ pySlice l 20 32))) = l := by
  have step : ∀ a b : Nat, (l.drop a).take b ++ l.drop (a + b) = l.drop a := by
    intro a b
    have h := List.take_append_drop b (l.drop a)
    rwa [List.drop_drop] at h
  simp only [pySlice]
  norm_num
  have h20 : (l.drop 20).take 12 = l.drop 20 := by
    apply List.take_of_length_le
    rw [List.length_drop, hl]
  have s16 : (l.drop 16).take 4 ++ l.drop 20 = l.drop 16 := by
    have h := step 16 4
    norm_num at h
    exact h
  have s12 : (l.drop 12).take 4 ++ l.drop 16 = l.drop 12 := by
    have h := step 12 4
    norm_num at h
    exact h
  have s8 : (l.drop 8).take 4 ++ l.drop 12 = l.drop 8 := by
    have h := step 8 4
    norm_num at h
    exact h
  rw [h20, s16, s12, s8, List.take_append_drop]

/-- Stripping tag and hyphens from the grouped pseudo-UUID yields the same
hex payload as stripping them from the plain tagged rendering. -/
theorem strip_grouped_eq (n : Nat) :
    stripUuid (gpuTag ++
      ((bdfHex32 n).take 8 ++ '-' :: pySlice (bdfHex32 n) 8 12 ++
       '-' :: pySlice (bdfHex32 n) 12 16 ++ '-' :: pySlice (bdfHex32 n) 16 20 ++
       '-' :: pySlice (bdfHex32 n) 20 32))
      = stripUuid (gpuTag ++ bdfHex32 n) := by
  have hnod := bdfHex32_no_dash n
  have hlen := bdfHex32_length n
  have f8 : ((bdfHex32 n).take 8).filter (fun c => c ≠ '-')
      = (bdfHex32 n).take 8 :=
    filter_ne_dash_eq_self _ fun c hc => hnod c (List.mem_of_mem_take hc)
  have fsl : ∀ a b : Nat,
      (pySlice (bdfHex32 n) a b).filter (fun c => c ≠ '-')
        = pySlice (bdfHex32 n) a b := fun a b =>
    filter_ne_dash_eq_self _ fun c hc =>
      hnod c (List.mem_of_mem_drop (List.mem_of_mem_take hc))
  unfold stripUuid
  rw [dropGpuTag_append, dropGpuTag_append, filter_ne_dash_eq_self _ hnod]
  simp only [List.append_assoc, List.filter_append, filter_dash_cons]
  rw [f8, fsl 8 12, fsl 12 16, fsl 16 20, fsl 20 32]
  exact pySlice_chunks_32 _ hlen

/-- C10: for every state, oracle, device index and format string other
than `roc`, `raw` or `nv`, `smi_get_device_uuid` returns the empty string
as an ordinary value: the `ValueError` raised internally for the invalid
format is caught by the function's own blanket handler, so the caller
cannot distinguish a bad format argument from a failed UUID query. -/
theorem uuid_invalid_format_empty (env : NativeEnv) (st : SmiState)
    (dev : Int) (format : String) (h1 : format ≠ "roc")
    (h2 : format ≠ "raw") (h3 : format ≠ "nv") :
    (smi_get_device_uuid env st dev format).1 = .ok [] := by
  unfold smi_get_device_uuid smi_get_device_uuid_try
  rcases hgp : get_processor_handle env st dev with ⟨r, st1⟩
  cases r with
  | error e => simp [pyCatch]
  | ok h =>
    cases hu : env.uuidNative h with
    | some u => simp [pyCatch, hu, h1, h2, h3]
    | none =>
      rcases hun : smi_get_device_unique_id env st1 dev with ⟨r2, st2⟩
      cases r2 with
      | error e2 => simp [pyCatch, hu, hun]
      | ok bdfId =>
        by_cases hm : bdfId = -1
        · simp [pyCatch, hu, hun, hm]
        · simp [pyCatch, hu, hun, hm, h1, h2, h3]

/-- Witness for C10 at the concrete invalid format string. -/
theorem uuid_invalid_format_empty_witness :
    (("xyz" : String) ≠ "roc" ∧ ("xyz" : String) ≠ "raw"
      ∧ ("xyz" : String) ≠ "nv")
    ∧ (smi_get_device_uuid env0 stReady 0 "xyz").1 = .ok [] :=
  ⟨⟨by decide, by decide, by decide⟩,
    uuid_invalid_format_empty env0 stReady 0 "xyz" (by decide) (by decide)
      (by decide)⟩

/-- C3: on an initialized session and valid device index, when the native
UUID call succeeds — or when it fails and the BDF query of the fallback
succeeds — the `roc`-format result is exactly `GPU-` prepended to the
`raw`-format result. -/
theorem uuid_roc_eq_gpu_concat_raw (env : NativeEnv) (st : SmiState)
    (dev : Int) (hinit : st.handleInitialized = true) (h0 : 0 ≤ dev)
    (hlt : dev < (st.processorHandles.length : Int))
    (hsucc : (env.uuidNative (deviceHandle st dev)).isSome
      ∨ (env.uuidNative (deviceHandle st dev) = none
         ∧ (env.bdf (deviceHandle st dev)).isSome)) :
    (smi_get_device_uuid env st dev "roc").1
      = Except.map (fun s => gpuTag ++ s)
          ((smi_get_device_uuid env st dev "raw").1) := by
  have hgp := get_processor_handle_ready env st dev hinit h0 hlt
  unfold smi_get_device_uuid smi_get_device_uuid_try
  rw [hgp]
  rcases hsucc with hu | ⟨hu, hb⟩
  · obtain ⟨u, hu'⟩ := Option.isSome_iff_exists.mp hu
    by_cases hpfx : List.isPrefixOf gpuTag u
    · simp [pyCatch, hu', hpfx, Except.map, gpuTag_prepend_drop u hpfx]
    · simp [pyCatch, hu', hpfx, Except.map]
  · obtain ⟨bn, hb'⟩ := Option.isSome_iff_exists.mp hb
    have hun : smi_get_device_unique_id env st dev = (.ok (bn : Int), st) := by
      simp [smi_get_device_unique_id, smi_get_device_unique_id_try, hgp, hb',
        pyCatch]
    have hneg : ¬((bn : Int) = -1) := by omega
    simp [pyCatch, hu, hun, hneg, Except.map]

/-- Witness for C3 on the concrete oracle whose native UUID call succeeds
with a bare id. -/
theorem uuid_roc_eq_gpu_concat_raw_witness :
    stReady.handleInitialized = true
    ∧ (0 : Int) ≤ 0
    ∧ (0 : Int) < (stReady.processorHandles.length : Int)
    ∧ ((envC3.uuidNative (deviceHandle stReady 0)).isSome
       ∨ (envC3.uuidNative (deviceHandle stReady 0) = none
          ∧ (envC3.bdf (deviceHandle stReady 0)).isSome))
    ∧ (smi_get_device_uuid envC3 stReady 0 "roc").1
        = Except.map (fun s => gpuTag ++ s)
            ((smi_get_device_uuid envC3 stReady 0 "raw").1) :=
  ⟨rfl, by decide, by decide, Or.inl rfl,
    uuid_roc_eq_gpu_concat_raw envC3 stReady 0 rfl (by decide) (by decide)
      (Or.inl rfl)⟩

/-- C4: for every state, oracle and device index, the `nv`-format and
`roc`-format UUID results carry the identical raw hex payload: stripping
the `GPU-` prefix and every hyphen from the one yields exactly the same
string as stripping them from the other, in the native-UUID path (where
the two results even coincide) as well as in the BDF fallback path. -/
theorem uuid_nv_roc_same_hex (env : NativeEnv) (st : SmiState) (dev : Int) :
    Except.map stripUuid ((smi_get_device_uuid env st dev "nv").1)
      = Except.map stripUuid ((smi_get_device_uuid env st dev "roc").1) := by
  unfold smi_get_device_uuid smi_get_device_uuid_try
  rcases hgp : get_processor_handle env st dev with ⟨r, st1⟩
  cases r with
  | error e => simp [pyCatch]
  | ok h =>
    cases hu : env.uuidNative h with
    | some u =>
      by_cases hpfx : List.isPrefixOf gpuTag u
      · simp [pyCatch, hu, hpfx, Except.map, gpuTag_prepend_drop u hpfx]
      · simp [pyCatch, hu, hpfx, Except.map]
    | none =>
      rcases hun : smi_get_device_unique_id env st1 dev with ⟨r2, st2⟩
      cases r2 with
      | error e2 => simp [pyCatch, hu, hun]
      | ok bdfId =>
        by_cases hm : bdfId = -1
        · simp [pyCatch, hu, hun, hm]
        · simp only [pyCatch, hu, hun, hm, Except.map, if_false, if_neg hm]
          simp
          exact strip_grouped_eq bdfId.toNat

end PyRSMI
